import Mathlib

/-!
Shallow embedding of `src/vhdl/ty2/types.rs` (the `moore` VHDL type model):
directed ranges, enumeration / integer / floating / physical / array types,
the marker types, the `Type` classification interface, and the `AnyType`
tagged dispatch view, together with the textual rendering (`Display`) of
each kind.

Modelling conventions:
- `num::BigInt` is modelled by `Int` (arbitrary-precision integers).
- `f64` is modelled by `Rat`: every floating value appearing in this
  development is a small integer, exactly representable in an IEEE double,
  and on those the `f64` additions and subtractions performed by the code
  are exact, so the rational model computes the same results.
- Interned `Name` values are modelled by the `String` they intern.
- Rust references (`&T`) are modelled by values; reference equality of the
  borrowed payload becomes structural equality of the payload.
- A Rust `panic!` (index out of bounds, `Option::expect`) is modelled by
  `none` / `Except.error` with the panic message; a returned error marks a
  control path on which the Rust code aborts.
-/

/-- Model of `num::BigInt`. -/
abbrev BigInt := Int

/-- Model of Rust `f64` (see the module comment: all doubles used here are
integer-valued and exactly representable, on which f64 arithmetic is exact). -/
abbrev F64 := Rat

/-- Model of the interned `Name` type: the interned string itself. -/
abbrev Name := String

/-- A range direction (`RangeDir` in the source): `To` is ascending,
`Downto` is descending. -/
inductive RangeDir : Type where
  | To : RangeDir
  | Downto : RangeDir
deriving DecidableEq, Repr

/-- Rendering of `RangeDir` (its `Display` impl). -/
def RangeDir.display : RangeDir → String
  | RangeDir.To => "to"
  | RangeDir.Downto => "downto"

/-- A directed range of values (`Range<T>` in the source): a direction plus
left and right bounds.  No ordering of the bounds is enforced. -/
structure Range (T : Type) : Type where
  dir : RangeDir
  left : T
  right : T
deriving DecidableEq, Repr

/-- `Range::with_left_right(dir, left, right)`. -/
def Range.with_left_right {T : Type} (dir : RangeDir) (left right : T) : Range T :=
  ⟨dir, left, right⟩

/-- `Range::with_lower_upper(dir, lower, upper)`: swaps the bounds into
left/right position according to the direction. -/
def Range.with_lower_upper {T : Type} (dir : RangeDir) (lower upper : T) : Range T :=
  match dir with
  | RangeDir.To => ⟨RangeDir.To, lower, upper⟩
  | RangeDir.Downto => ⟨RangeDir.Downto, upper, lower⟩

/-- `Range::ascending(left, right)`. -/
def Range.ascending {T : Type} (left right : T) : Range T :=
  ⟨RangeDir.To, left, right⟩

/-- `Range::descending(left, right)`. -/
def Range.descending {T : Type} (left right : T) : Range T :=
  ⟨RangeDir.Downto, left, right⟩

/-- `Range::lower()`: the left bound for an ascending range, the right bound
for a descending one. -/
def Range.lower {T : Type} (r : Range T) : T :=
  match r.dir with
  | RangeDir.To => r.left
  | RangeDir.Downto => r.right

/-- `Range::upper()`: the right bound for an ascending range, the left bound
for a descending one. -/
def Range.upper {T : Type} (r : Range T) : T :=
  match r.dir with
  | RangeDir.To => r.right
  | RangeDir.Downto => r.left

/-- `Range::is_null()`: `self.lower() >= self.upper()`. -/
def Range.is_null {T : Type} [LinearOrder T] (r : Range T) : Bool :=
  decide (r.upper ≤ r.lower)

/-- `Range::len()`: `&(self.upper() + &One::one()) - self.lower()`.  The
same generic formula is instantiated at `BigInt` and at `f64`. -/
def Range.len {T : Type} [Add T] [Sub T] [One T] (r : Range T) : T :=
  (r.upper + 1) - r.lower

/-- `Range::has_subrange(subrange)`:
`self.lower() <= subrange.lower() && self.upper() >= subrange.upper()`. -/
def Range.has_subrange {T : Type} [LinearOrder T] (r subrange : Range T) : Bool :=
  decide (r.lower ≤ subrange.lower) && decide (subrange.upper ≤ r.upper)

/-- `Display for Range<T>`: `write!(f, "{} {} {}", self.left, self.dir,
self.right)`, parameterized over the bound type's own rendering. -/
def Range.display {T : Type} (showT : T → String) (r : Range T) : String :=
  showT r.left ++ " " ++ r.dir.display ++ " " ++ showT r.right

/-- `IntegerRange` = `Range<BigInt>`. -/
abbrev IntegerRange := Range BigInt

/-- `RealRange` = `Range<f64>`. -/
abbrev RealRange := Range F64

/-- An enumeration literal (`EnumLiteral`): an interned identifier or a
character. -/
inductive EnumLiteral : Type where
  | Ident : Name → EnumLiteral
  | Char : Char → EnumLiteral
deriving DecidableEq, Repr

/-- `Display for EnumLiteral`: identifiers print bare, characters print
between single quotes (`write!(f, "'{}'", c)`). -/
def EnumLiteral.display : EnumLiteral → String
  | EnumLiteral.Ident n => n
  | EnumLiteral.Char c => "\x27" ++ String.singleton c ++ "\x27"

/-- An enumeration type (`EnumType`): an ordered sequence of literals. -/
structure EnumType : Type where
  lits : List EnumLiteral
deriving DecidableEq, Repr

/-- `EnumType::new(lits)`: collects the input sequence as given. -/
def EnumType.new (lits : List EnumLiteral) : EnumType :=
  ⟨lits⟩

/-- `EnumType::len()`: the number of literals. -/
def EnumType.len (t : EnumType) : Nat :=
  t.lits.length

/-- `EnumType::literal(pos)`: `&self.lits[pos]`.  Rust's `Vec` indexing
panics when `pos` is out of bounds; `none` models that panic. -/
def EnumType.literal (t : EnumType) (pos : Nat) : Option EnumLiteral :=
  t.lits.get? pos

/-- `EnumType::literals()`: the full sequence. -/
def EnumType.literals (t : EnumType) : List EnumLiteral :=
  t.lits

/-- The tail of the separator stream `repeat(", ")`: each remaining item is
written after a `", "` separator. -/
def commaSepRest : List String → String
  | [] => ""
  | x :: xs => ", " ++ x ++ commaSepRest xs

/-- The separator stream `once("").chain(repeat(", "))` zipped with the
items: the first item is written after the empty separator, every later one
after `", "`; the formatter writes concatenate left to right. -/
def commaJoin : List String → String
  | [] => ""
  | x :: xs => x ++ commaSepRest xs

/-- `Display for EnumType`: parenthesized, comma-separated literals. -/
def EnumType.display (t : EnumType) : String :=
  "(" ++ commaJoin (t.lits.map EnumLiteral.display) ++ ")"

/-- Model of an `&IntegerType` trait object (`trait IntegerType: Type`): the
capability exposes a `Range<BigInt>` and an optional resolution-function
identifier (default `None`); the base-type link of a concrete implementer is
not observed by anything in this file. -/
structure IntegerType : Type where
  range : Range BigInt
  resolution_func : Option Nat
deriving DecidableEq, Repr

/-- A floating-point type (`FloatingType`): wraps one `Range<f64>`. -/
structure FloatingType : Type where
  range : Range F64
deriving DecidableEq, Repr

/-- `FloatingType::new(range)`. -/
def FloatingType.new (range : Range F64) : FloatingType :=
  ⟨range⟩

/-- A unit of a physical type (`PhysicalUnit`). -/
structure PhysicalUnit : Type where
  name : Name
  abs : BigInt
  rel : Option (BigInt × Nat)
deriving DecidableEq, Repr

/-- `PhysicalUnit::primary(name, abs)`: no relative link. -/
def PhysicalUnit.primary (name : Name) (abs : BigInt) : PhysicalUnit :=
  ⟨name, abs, none⟩

/-- `PhysicalUnit::secondary(name, abs, rel, rel_to)`. -/
def PhysicalUnit.secondary (name : Name) (abs rel : BigInt) (rel_to : Nat) : PhysicalUnit :=
  ⟨name, abs, some (rel, rel_to)⟩

/-- A physical type (`PhysicalType`): a `Range<BigInt>`, an ordered unit
sequence, and the index of the primary unit. -/
structure PhysicalType : Type where
  range : Range BigInt
  units : List PhysicalUnit
  primary : Nat
deriving DecidableEq, Repr

/-- `PhysicalType::new(range, units, primary)`: stores the arguments as
given, with no validation of `primary` against `units`. -/
def PhysicalType.new (range : Range BigInt) (units : List PhysicalUnit)
    (primary : Nat) : PhysicalType :=
  ⟨range, units, primary⟩

/-- `PhysicalType::primary_index()`. -/
def PhysicalType.primary_index (t : PhysicalType) : Nat :=
  t.primary

/-- `Display for PhysicalType`: the range, then `" units ("`, the unit names
comma-separated, then `")"`. -/
def PhysicalType.display (t : PhysicalType) : String :=
  Range.display toString t.range ++ " units (" ++
    commaJoin (t.units.map PhysicalUnit.name) ++ ")"

/-- The null marker type (`NullType`): a stateless singleton. -/
structure NullType : Type
deriving DecidableEq, Repr

/-- The universal-integer marker type (`UniversalIntegerType`). -/
structure UniversalIntegerType : Type
deriving DecidableEq, Repr

/-- The universal-real marker type (`UniversalRealType`). -/
structure UniversalRealType : Type
deriving DecidableEq, Repr

mutual

/-- The tagged dispatch view (`enum AnyType<'t>`) over all concrete kinds,
mutually defined with `ArrayType`, whose index/element fields are `&Type`
trait objects; every implementer of `Type` is one of these kinds, so the
trait objects are modelled by the tagged view itself. -/
inductive AnyType : Type where
  | Enum : EnumType → AnyType
  | Integer : IntegerType → AnyType
  | Floating : FloatingType → AnyType
  | Physical : PhysicalType → AnyType
  | Array : ArrayType → AnyType
  | Null : AnyType
  | UniversalInteger : AnyType
  | UniversalReal : AnyType

/-- An array type (`ArrayType<'t>`): index subtypes plus an element
subtype, all non-owning references into the arena. -/
inductive ArrayType : Type where
  | mk : List AnyType → AnyType → ArrayType

end

/-- The index subtypes of an `ArrayType`. -/
def ArrayType.indices : ArrayType → List AnyType
  | ArrayType.mk indices _ => indices

/-- The element subtype of an `ArrayType`. -/
def ArrayType.element : ArrayType → AnyType
  | ArrayType.mk _ element => element

/-- `impl Type for EnumType`: `is_scalar`. -/
def EnumType.is_scalar (_ : EnumType) : Bool := true

/-- `impl Type for EnumType`: `is_discrete`. -/
def EnumType.is_discrete (_ : EnumType) : Bool := true

/-- `impl Type for EnumType`: `is_numeric`. -/
def EnumType.is_numeric (_ : EnumType) : Bool := false

/-- `impl Type for EnumType`: `is_composite`. -/
def EnumType.is_composite (_ : EnumType) : Bool := false

/-- `impl Type for EnumType`: `as_any` tags the reference as `Enum`. -/
def EnumType.as_any (t : EnumType) : AnyType := AnyType.Enum t

/-- Blanket `impl Type for T where T: IntegerType`: `is_scalar`. -/
def IntegerType.is_scalar (_ : IntegerType) : Bool := true

/-- Blanket `impl Type for T where T: IntegerType`: `is_discrete`. -/
def IntegerType.is_discrete (_ : IntegerType) : Bool := true

/-- Blanket `impl Type for T where T: IntegerType`: `is_numeric`. -/
def IntegerType.is_numeric (_ : IntegerType) : Bool := true

/-- Blanket `impl Type for T where T: IntegerType`: `is_composite`. -/
def IntegerType.is_composite (_ : IntegerType) : Bool := false

/-- Blanket `impl Type for T where T: IntegerType`: `as_any`. -/
def IntegerType.as_any (t : IntegerType) : AnyType := AnyType.Integer t

/-- `impl Type for FloatingType`: `is_scalar`. -/
def FloatingType.is_scalar (_ : FloatingType) : Bool := true

/-- `impl Type for FloatingType`: `is_discrete`. -/
def FloatingType.is_discrete (_ : FloatingType) : Bool := false

/-- `impl Type for FloatingType`: `is_numeric`. -/
def FloatingType.is_numeric (_ : FloatingType) : Bool := true

/-- `impl Type for FloatingType`: `is_composite`. -/
def FloatingType.is_composite (_ : FloatingType) : Bool := false

/-- `impl Type for FloatingType`: `as_any`. -/
def FloatingType.as_any (t : FloatingType) : AnyType := AnyType.Floating t

/-- Rendering of an `f64` bound: Rust prints the integer-valued doubles used
in this development without a decimal point; non-integer values do not occur
here, and for them the model falls back to a fraction form. -/
def f64Display (q : F64) : String :=
  if q.den = 1 then toString q.num else toString q.num ++ "/" ++ toString q.den

/-- `Display for FloatingType`: delegates to the wrapped range. -/
def FloatingType.display (t : FloatingType) : String :=
  Range.display f64Display t.range

/-- `impl Type for PhysicalType`: `is_scalar`. -/
def PhysicalType.is_scalar (_ : PhysicalType) : Bool := true

/-- `impl Type for PhysicalType`: `is_discrete`. -/
def PhysicalType.is_discrete (_ : PhysicalType) : Bool := false

/-- `impl Type for PhysicalType`: `is_numeric`. -/
def PhysicalType.is_numeric (_ : PhysicalType) : Bool := true

/-- `impl Type for PhysicalType`: `is_composite`. -/
def PhysicalType.is_composite (_ : PhysicalType) : Bool := false

/-- `impl Type for PhysicalType`: `as_any`. -/
def PhysicalType.as_any (t : PhysicalType) : AnyType := AnyType.Physical t

/-- `impl Type for ArrayType`: `is_scalar`. -/
def ArrayType.is_scalar (_ : ArrayType) : Bool := false

/-- `impl Type for ArrayType`: `is_discrete`. -/
def ArrayType.is_discrete (_ : ArrayType) : Bool := false

/-- `impl Type for ArrayType`: `is_numeric`. -/
def ArrayType.is_numeric (_ : ArrayType) : Bool := false

/-- `impl Type for ArrayType`: `is_composite`. -/
def ArrayType.is_composite (_ : ArrayType) : Bool := true

/-- `impl Type for ArrayType`: `as_any`. -/
def ArrayType.as_any (t : ArrayType) : AnyType := AnyType.Array t

/-- `Display for ArrayType`: the fixed placeholder. -/
def ArrayType.display (_ : ArrayType) : String := "array"

/-- `impl Type for NullType`: `is_scalar`. -/
def NullType.is_scalar (_ : NullType) : Bool := false

/-- `impl Type for NullType`: `is_discrete`. -/
def NullType.is_discrete (_ : NullType) : Bool := false

/-- `impl Type for NullType`: `is_numeric`. -/
def NullType.is_numeric (_ : NullType) : Bool := false

/-- `impl Type for NullType`: `is_composite`. -/
def NullType.is_composite (_ : NullType) : Bool := false

/-- `impl Type for NullType`: `as_any`. -/
def NullType.as_any (_ : NullType) : AnyType := AnyType.Null

/-- `Display for NullType`. -/
def NullType.display (_ : NullType) : String := "null"

/-- `impl Type for UniversalIntegerType`: `is_scalar`. -/
def UniversalIntegerType.is_scalar (_ : UniversalIntegerType) : Bool := true

/-- `impl Type for UniversalIntegerType`: `is_discrete`. -/
def UniversalIntegerType.is_discrete (_ : UniversalIntegerType) : Bool := true

/-- `impl Type for UniversalIntegerType`: `is_numeric`. -/
def UniversalIntegerType.is_numeric (_ : UniversalIntegerType) : Bool := true

/-- `impl Type for UniversalIntegerType`: `is_composite`. -/
def UniversalIntegerType.is_composite (_ : UniversalIntegerType) : Bool := false

/-- `impl Type for UniversalIntegerType`: `as_any`. -/
def UniversalIntegerType.as_any (_ : UniversalIntegerType) : AnyType :=
  AnyType.UniversalInteger

/-- `Display for UniversalIntegerType`: `write!(f, "{{universal integer}}")`,
where the doubled braces escape to literal ones. -/
def UniversalIntegerType.display (_ : UniversalIntegerType) : String :=
  "\x7buniversal integer\x7d"

/-- `impl Type for UniversalRealType`: `is_scalar`. -/
def UniversalRealType.is_scalar (_ : UniversalRealType) : Bool := true

/-- `impl Type for UniversalRealType`: `is_discrete`. -/
def UniversalRealType.is_discrete (_ : UniversalRealType) : Bool := false

/-- `impl Type for UniversalRealType`: `is_numeric`. -/
def UniversalRealType.is_numeric (_ : UniversalRealType) : Bool := true

/-- `impl Type for UniversalRealType`: `is_composite`. -/
def UniversalRealType.is_composite (_ : UniversalRealType) : Bool := false

/-- `impl Type for UniversalRealType`: `as_any`. -/
def UniversalRealType.as_any (_ : UniversalRealType) : AnyType :=
  AnyType.UniversalReal

/-- `Display for UniversalRealType`. -/
def UniversalRealType.display (_ : UniversalRealType) : String :=
  "\x7buniversal real\x7d"

/-- `impl Type for AnyType`: `is_scalar` dispatches to the tagged kind. -/
def AnyType.is_scalar : AnyType → Bool
  | AnyType.Enum t => t.is_scalar
  | AnyType.Integer t => t.is_scalar
  | AnyType.Floating t => t.is_scalar
  | AnyType.Physical t => t.is_scalar
  | AnyType.Array t => t.is_scalar
  | AnyType.Null => NullType.is_scalar NullType.mk
  | AnyType.UniversalInteger => UniversalIntegerType.is_scalar UniversalIntegerType.mk
  | AnyType.UniversalReal => UniversalRealType.is_scalar UniversalRealType.mk

/-- `impl Type for AnyType`: `is_discrete` dispatches to the tagged kind. -/
def AnyType.is_discrete : AnyType → Bool
  | AnyType.Enum t => t.is_discrete
  | AnyType.Integer t => t.is_discrete
  | AnyType.Floating t => t.is_discrete
  | AnyType.Physical t => t.is_discrete
  | AnyType.Array t => t.is_discrete
  | AnyType.Null => NullType.is_discrete NullType.mk
  | AnyType.UniversalInteger => UniversalIntegerType.is_discrete UniversalIntegerType.mk
  | AnyType.UniversalReal => UniversalRealType.is_discrete UniversalRealType.mk

/-- `impl Type for AnyType`: `is_numeric` dispatches to the tagged kind. -/
def AnyType.is_numeric : AnyType → Bool
  | AnyType.Enum t => t.is_numeric
  | AnyType.Integer t => t.is_numeric
  | AnyType.Floating t => t.is_numeric
  | AnyType.Physical t => t.is_numeric
  | AnyType.Array t => t.is_numeric
  | AnyType.Null => NullType.is_numeric NullType.mk
  | AnyType.UniversalInteger => UniversalIntegerType.is_numeric UniversalIntegerType.mk
  | AnyType.UniversalReal => UniversalRealType.is_numeric UniversalRealType.mk

/-- `impl Type for AnyType`: `is_composite` dispatches to the tagged kind. -/
def AnyType.is_composite : AnyType → Bool
  | AnyType.Enum t => t.is_composite
  | AnyType.Integer t => t.is_composite
  | AnyType.Floating t => t.is_composite
  | AnyType.Physical t => t.is_composite
  | AnyType.Array t => t.is_composite
  | AnyType.Null => NullType.is_composite NullType.mk
  | AnyType.UniversalInteger => UniversalIntegerType.is_composite UniversalIntegerType.mk
  | AnyType.UniversalReal => UniversalRealType.is_composite UniversalRealType.mk

/-- `impl Type for AnyType`: `as_any` returns `*self`. -/
def AnyType.as_any (t : AnyType) : AnyType := t

/-- `AnyType::as_enum`: `Some(t)` when the tag is `Enum`, `None` otherwise. -/
def AnyType.as_enum : AnyType → Option EnumType
  | AnyType.Enum t => some t
  | _ => none

/-- `AnyType::as_integer`. -/
def AnyType.as_integer : AnyType → Option IntegerType
  | AnyType.Integer t => some t
  | _ => none

/-- `AnyType::as_floating`. -/
def AnyType.as_floating : AnyType → Option FloatingType
  | AnyType.Floating t => some t
  | _ => none

/-- `AnyType::as_physical`. -/
def AnyType.as_physical : AnyType → Option PhysicalType
  | AnyType.Physical t => some t
  | _ => none

/-- `AnyType::as_array`. -/
def AnyType.as_array : AnyType → Option ArrayType
  | AnyType.Array t => some t
  | _ => none

/-- `AnyType::is_null` (the tag check, unrelated to `Range::is_null`). -/
def AnyType.is_null : AnyType → Bool
  | AnyType.Null => true
  | _ => false

/-- `AnyType::is_universal_integer`. -/
def AnyType.is_universal_integer : AnyType → Bool
  | AnyType.UniversalInteger => true
  | _ => false

/-- `AnyType::is_universal_real`. -/
def AnyType.is_universal_real : AnyType → Bool
  | AnyType.UniversalReal => true
  | _ => false

/-- Models Rust `Option::expect(msg)`: the value on `Some`, and the panic
carrying `msg` on `None` (`Except.error` marks the abort path). -/
def expectPanic {A : Type} (o : Option A) (msg : String) : Except String A :=
  match o with
  | some x => Except.ok x
  | none => Except.error msg

/-- `AnyType::unwrap_enum`: `self.as_enum().expect("type is not an enum")`. -/
def AnyType.unwrap_enum (v : AnyType) : Except String EnumType :=
  expectPanic (v.as_enum) ("type is not an enum")

/-- `AnyType::unwrap_integer`. -/
def AnyType.unwrap_integer (v : AnyType) : Except String IntegerType :=
  expectPanic (v.as_integer) ("type is not an integer")

/-- `AnyType::unwrap_floating` (the panic message of the source, verbatim). -/
def AnyType.unwrap_floating (v : AnyType) : Except String FloatingType :=
  expectPanic (v.as_floating) ("type is not an floating")

/-- `AnyType::unwrap_physical` (the panic message of the source, verbatim). -/
def AnyType.unwrap_physical (v : AnyType) : Except String PhysicalType :=
  expectPanic (v.as_physical) ("type is not an physical")

/-- `AnyType::unwrap_array`. -/
def AnyType.unwrap_array (v : AnyType) : Except String ArrayType :=
  expectPanic (v.as_array) ("type is not an array")

/-- The classification table of spec §4.1, written from the spec's words:
per kind, the quadruple (is_scalar, is_discrete, is_numeric, is_composite). -/
def specClassTable : AnyType → Bool × Bool × Bool × Bool
  | AnyType.Enum _ => (true, true, false, false)
  | AnyType.Integer _ => (true, true, true, false)
  | AnyType.Floating _ => (true, false, true, false)
  | AnyType.Physical _ => (true, false, true, false)
  | AnyType.Array _ => (false, false, false, true)
  | AnyType.Null => (false, false, false, false)
  | AnyType.UniversalInteger => (true, true, true, false)
  | AnyType.UniversalReal => (true, false, true, false)

/-- Flip the direction of a range while keeping the same bound set: the
flipped range has the same lower and upper bounds but the other direction. -/
def Range.flipped {T : Type} (r : Range T) : Range T :=
  match r.dir with
  | RangeDir.To => Range.descending r.right r.left
  | RangeDir.Downto => Range.ascending r.right r.left

/-- The comma-separated join written from the spec's words (`lit, lit, …`). -/
def specJoin : List String → String
  | [] => ""
  | [x] => x
  | x :: y :: xs => x ++ ", " ++ specJoin (y :: xs)

/-- The source's separator loop produces exactly the spec's comma join. -/
theorem commaJoin_eq_specJoin (xs : List String) : commaJoin xs = specJoin xs := by
  induction xs with
  | nil => rfl
  | cons x xs ih =>
    cases xs with
    | nil => simp [commaJoin, commaSepRest, specJoin]
    | cons y ys =>
      simp only [commaJoin, commaSepRest, specJoin] at ih ⊢
      rw [← ih]
      simp [String.append_assoc]

/-- The physical-type example of spec §8. -/
def physExample : PhysicalType :=
  PhysicalType.new (Range.ascending (0 : BigInt) 1000000)
    [PhysicalUnit.primary ("fs") 1,
     PhysicalUnit.secondary ("ps") 1000 1000 0,
     PhysicalUnit.secondary ("ns") 1000000 1000 1] 0

/-- Claim C1: the four classification predicates return exactly the table of
spec §4.1 for every kind, both on the concrete types (Enumeration: scalar
and discrete only; Integer-capable: scalar, discrete, numeric; Floating and
Physical: scalar and numeric; Array: composite only; Null: nothing;
UniversalInteger: scalar, discrete, numeric; UniversalReal: scalar and
numeric) and through the dispatch view `AnyType`. -/
theorem c1_classification_table :
    (∀ v : AnyType,
        (v.is_scalar, v.is_discrete, v.is_numeric, v.is_composite)
          = specClassTable v) ∧
    (∀ t : EnumType,
        (t.is_scalar, t.is_discrete, t.is_numeric, t.is_composite)
          = (true, true, false, false)) ∧
    (∀ t : IntegerType,
        (t.is_scalar, t.is_discrete, t.is_numeric, t.is_composite)
          = (true, true, true, false)) ∧
    (∀ t : FloatingType,
        (t.is_scalar, t.is_discrete, t.is_numeric, t.is_composite)
          = (true, false, true, false)) ∧
    (∀ t : PhysicalType,
        (t.is_scalar, t.is_discrete, t.is_numeric, t.is_composite)
          = (true, false, true, false)) ∧
    (∀ t : ArrayType,
        (t.is_scalar, t.is_discrete, t.is_numeric, t.is_composite)
          = (false, false, false, true)) ∧
    (∀ t : NullType,
        (t.is_scalar, t.is_discrete, t.is_numeric, t.is_composite)
          = (false, false, false, false)) ∧
    (∀ t : UniversalIntegerType,
        (t.is_scalar, t.is_discrete, t.is_numeric, t.is_composite)
          = (true, true, true, false)) ∧
    (∀ t : UniversalRealType,
        (t.is_scalar, t.is_discrete, t.is_numeric, t.is_composite)
          = (true, false, true, false)) := by
  refine ⟨fun v => ?_, fun t => rfl, fun t => rfl, fun t => rfl, fun t => rfl,
    fun t => rfl, fun t => rfl, fun t => rfl, fun t => rfl⟩
  cases v <;> rfl

/-- Claim C2: for every kind — every concrete type, every marker, and every
tagged dispatch view over them — `is_scalar` and `is_composite` are never
both true, `is_discrete` implies `is_scalar`, and `is_numeric` implies
`is_scalar`. -/
theorem c2_classification_invariants :
    (∀ v : AnyType,
        ¬(v.is_scalar = true ∧ v.is_composite = true) ∧
        (v.is_discrete = true → v.is_scalar = true) ∧
        (v.is_numeric = true → v.is_scalar = true)) ∧
    (∀ t : EnumType,
        ¬(t.is_scalar = true ∧ t.is_composite = true) ∧
        (t.is_discrete = true → t.is_scalar = true) ∧
        (t.is_numeric = true → t.is_scalar = true)) ∧
    (∀ t : IntegerType,
        ¬(t.is_scalar = true ∧ t.is_composite = true) ∧
        (t.is_discrete = true → t.is_scalar = true) ∧
        (t.is_numeric = true → t.is_scalar = true)) ∧
    (∀ t : FloatingType,
        ¬(t.is_scalar = true ∧ t.is_composite = true) ∧
        (t.is_discrete = true → t.is_scalar = true) ∧
        (t.is_numeric = true → t.is_scalar = true)) ∧
    (∀ t : PhysicalType,
        ¬(t.is_scalar = true ∧ t.is_composite = true) ∧
        (t.is_discrete = true → t.is_scalar = true) ∧
        (t.is_numeric = true → t.is_scalar = true)) ∧
    (∀ t : ArrayType,
        ¬(t.is_scalar = true ∧ t.is_composite = true) ∧
        (t.is_discrete = true → t.is_scalar = true) ∧
        (t.is_numeric = true → t.is_scalar = true)) ∧
    (∀ t : NullType,
        ¬(t.is_scalar = true ∧ t.is_composite = true) ∧
        (t.is_discrete = true → t.is_scalar = true) ∧
        (t.is_numeric = true → t.is_scalar = true)) ∧
    (∀ t : UniversalIntegerType,
        ¬(t.is_scalar = true ∧ t.is_composite = true) ∧
        (t.is_discrete = true → t.is_scalar = true) ∧
        (t.is_numeric = true → t.is_scalar = true)) ∧
    (∀ t : UniversalRealType,
        ¬(t.is_scalar = true ∧ t.is_composite = true) ∧
        (t.is_discrete = true → t.is_scalar = true) ∧
        (t.is_numeric = true → t.is_scalar = true)) := by
  refine ⟨fun v => ?_, fun t => ?_, fun t => ?_, fun t => ?_, fun t => ?_,
    fun t => ?_, fun t => ?_, fun t => ?_, fun t => ?_⟩
  · cases v <;>
      simp [AnyType.is_scalar, AnyType.is_discrete, AnyType.is_numeric,
        AnyType.is_composite, EnumType.is_scalar, EnumType.is_discrete,
        EnumType.is_numeric, EnumType.is_composite, IntegerType.is_scalar,
        IntegerType.is_discrete, IntegerType.is_numeric, IntegerType.is_composite,
        FloatingType.is_scalar, FloatingType.is_discrete, FloatingType.is_numeric,
        FloatingType.is_composite, PhysicalType.is_scalar, PhysicalType.is_discrete,
        PhysicalType.is_numeric, PhysicalType.is_composite, ArrayType.is_scalar,
        ArrayType.is_discrete, ArrayType.is_numeric, ArrayType.is_composite,
        NullType.is_scalar, NullType.is_discrete, NullType.is_numeric,
        NullType.is_composite, UniversalIntegerType.is_scalar,
        UniversalIntegerType.is_discrete, UniversalIntegerType.is_numeric,
        UniversalIntegerType.is_composite, UniversalRealType.is_scalar,
        UniversalRealType.is_discrete, UniversalRealType.is_numeric,
        UniversalRealType.is_composite]
  · exact ⟨fun h => by simp [EnumType.is_composite] at h, fun _ => rfl, fun _ => rfl⟩
  · exact ⟨fun h => by simp [IntegerType.is_composite] at h, fun _ => rfl, fun _ => rfl⟩
  · exact ⟨fun h => by simp [FloatingType.is_composite] at h, fun _ => rfl, fun _ => rfl⟩
  · exact ⟨fun h => by simp [PhysicalType.is_composite] at h, fun _ => rfl, fun _ => rfl⟩
  · exact ⟨fun h => by simp [ArrayType.is_scalar] at h,
      fun h => by simp [ArrayType.is_discrete] at h,
      fun h => by simp [ArrayType.is_numeric] at h⟩
  · exact ⟨fun h => by simp [NullType.is_scalar] at h,
      fun h => by simp [NullType.is_discrete] at h,
      fun h => by simp [NullType.is_numeric] at h⟩
  · exact ⟨fun h => by simp [UniversalIntegerType.is_composite] at h, fun _ => rfl, fun _ => rfl⟩
  · exact ⟨fun h => by simp [UniversalRealType.is_composite] at h, fun _ => rfl, fun _ => rfl⟩

/-- Witness for C2: the invariants applied to the universal-integer view,
discharging the discrete-implies-scalar hypothesis there. -/
theorem c2_witness : (AnyType.UniversalInteger).is_scalar = true :=
  (c2_classification_invariants.1 AnyType.UniversalInteger).2.1 rfl

/-- Counterexample to claim C3: the floating-point range `0 to 42` has
`len() = 43`, not the continuous magnitude `upper − lower = 42`; the generic
`len` applies the inclusive `+1` convention in the floating domain too (the
source's own doctest asserts `a.len() == 43.0` for this very range). -/
theorem c3_counterexample :
    ¬((Range.ascending (0 : F64) 42).len
        = (Range.ascending (0 : F64) 42).upper - (Range.ascending (0 : F64) 42).lower) := by
  simp only [Range.len, Range.upper, Range.lower, Range.ascending]
  norm_num

/-- Claim C3 (amended): `len()` is the same inclusive formula in both
domains: for every integer (BigInt) range and for every floating-point
range, `len() = upper − lower + 1` (signed, may be ≤ 0; e.g. the ascending
integer range from 42 to 0 has length −41, and the floating range `0 to 42`
has length 43, not 42). -/
theorem c3_len_per_domain :
    (∀ r : Range BigInt, r.len = r.upper - r.lower + 1) ∧
    ((Range.ascending (42 : BigInt) 0).len = -41) ∧
    (∀ r : Range F64, r.len = r.upper - r.lower + 1) ∧
    ((FloatingType.new (Range.ascending (0 : F64) 42)).range.len = 43) := by
  refine ⟨fun r => ?_, by decide, fun r => ?_, ?_⟩
  · simp only [Range.len]; ring
  · simp only [Range.len]; ring
  · simp only [FloatingType.new, Range.len, Range.upper, Range.lower, Range.ascending]
    norm_num

/-- Claim C4: for every directed range, over any linearly ordered domain,
`is_null()` returns true exactly when `lower ≥ upper`; in particular a range
whose two bounds coincide is a null range, in either direction. -/
theorem c4_is_null_iff :
    (∀ (T : Type) [LinearOrder T] (r : Range T),
        r.is_null = true ↔ r.lower ≥ r.upper) ∧
    (∀ (T : Type) [LinearOrder T] (dir : RangeDir) (x : T),
        (Range.with_left_right dir x x).is_null = true) := by
  constructor
  · intro T _ r
    simp [Range.is_null, ge_iff_le]
  · intro T _ dir x
    cases dir <;>
      simp [Range.is_null, Range.with_left_right, Range.upper, Range.lower]

/-- Witness for C4: the equal-bound ascending integer range from 42 to 42 is
null, by the iff applied at that concrete range. -/
theorem c4_witness : (Range.ascending (42 : BigInt) 42).is_null = true :=
  (c4_is_null_iff.1 BigInt (Range.ascending (42 : BigInt) 42)).mpr (le_refl 42)

/-- Claim C5: over any linearly ordered domain, `A.has_subrange(B)` holds
exactly when `A.lower ≤ B.lower` and `A.upper ≥ B.upper`; the result depends
only on the lower/upper bounds of the two ranges, so it is unchanged when
the direction of either range is flipped keeping the same bound set; the
spec's concrete examples over the integers hold. -/
theorem c5_has_subrange :
    (∀ (T : Type) [LinearOrder T] (a b : Range T),
        a.has_subrange b = true ↔ a.lower ≤ b.lower ∧ a.upper ≥ b.upper) ∧
    (∀ (T : Type) [LinearOrder T] (a b a2 b2 : Range T),
        a.lower = a2.lower → a.upper = a2.upper → b.lower = b2.lower →
        b.upper = b2.upper → a.has_subrange b = a2.has_subrange b2) ∧
    (∀ (T : Type) [LinearOrder T] (a b : Range T),
        (a.flipped.lower = a.lower ∧ a.flipped.upper = a.upper) ∧
        a.flipped.has_subrange b = a.has_subrange b ∧
        a.has_subrange b.flipped = a.has_subrange b) ∧
    ((Range.ascending (0 : BigInt) 42).has_subrange (Range.ascending 4 16) = true ∧
     (Range.ascending (4 : BigInt) 16).has_subrange (Range.ascending 0 42) = false ∧
     (Range.descending (16 : BigInt) 4).has_subrange (Range.ascending 4 16) = true ∧
     (Range.ascending (4 : BigInt) 16).has_subrange (Range.descending 16 4) = true) := by
  have flow : ∀ (T : Type) [LinearOrder T] (a : Range T),
      a.flipped.lower = a.lower ∧ a.flipped.upper = a.upper := by
    intro T _ a
    obtain ⟨dir, l, r⟩ := a
    cases dir <;>
      simp [Range.flipped, Range.lower, Range.upper, Range.ascending, Range.descending]
  have hdep : ∀ (T : Type) [LinearOrder T] (a b a2 b2 : Range T),
      a.lower = a2.lower → a.upper = a2.upper → b.lower = b2.lower →
      b.upper = b2.upper → a.has_subrange b = a2.has_subrange b2 := by
    intro T _ a b a2 b2 h1 h2 h3 h4
    simp [Range.has_subrange, h1, h2, h3, h4]
  refine ⟨?_, hdep, ?_, by decide, by decide, by decide, by decide⟩
  · intro T _ a b
    simp [Range.has_subrange, ge_iff_le]
  · intro T _ a b
    refine ⟨flow _ a, ?_, ?_⟩
    · exact hdep _ a.flipped b a b (flow _ a).1 (flow _ a).2 rfl rfl
    · exact hdep _ a b.flipped a b rfl rfl (flow _ b).1 (flow _ b).2

/-- Witness for C5: the bounds-only dependence applied to concrete integer
ranges whose directions are flipped, discharging the four bound-equality
hypotheses by computation. -/
theorem c5_witness :
    (Range.descending (42 : BigInt) 0).has_subrange (Range.ascending 4 16)
      = (Range.ascending (0 : BigInt) 42).has_subrange (Range.descending 16 4) :=
  c5_has_subrange.2.1 BigInt (Range.descending (42 : BigInt) 0)
    (Range.ascending 4 16) (Range.ascending (0 : BigInt) 42)
    (Range.descending 16 4) rfl rfl rfl rfl

/-- Claim C6: converting any concrete type value (or the view itself) to the
tagged dispatch view and applying `as_any` again is the identity: the result
carries the same tag and the same underlying value, for every concrete kind
and every marker. -/
theorem c6_as_any_roundtrip :
    (∀ v : AnyType, v.as_any = v) ∧
    (∀ t : EnumType, (t.as_any).as_any = AnyType.Enum t) ∧
    (∀ t : IntegerType, (t.as_any).as_any = AnyType.Integer t) ∧
    (∀ t : FloatingType, (t.as_any).as_any = AnyType.Floating t) ∧
    (∀ t : PhysicalType, (t.as_any).as_any = AnyType.Physical t) ∧
    (∀ t : ArrayType, (t.as_any).as_any = AnyType.Array t) ∧
    (((NullType.mk).as_any).as_any = AnyType.Null) ∧
    (((UniversalIntegerType.mk).as_any).as_any = AnyType.UniversalInteger) ∧
    (((UniversalRealType.mk).as_any).as_any = AnyType.UniversalReal) :=
  ⟨fun _ => rfl, fun _ => rfl, fun _ => rfl, fun _ => rfl, fun _ => rfl,
   fun _ => rfl, rfl, rfl, rfl⟩

/-- Claim C7: for every dispatch view and every kind among Enum, Integer,
Floating, Physical and Array, the checked accessor returns exactly the
referenced concrete value when the tag matches and `none` otherwise (it is a
total function, so it never panics), while the corresponding unwrap accessor
returns the value on a tag match and aborts with its fixed panic message on
any mismatch, never producing a default value. -/
theorem c7_accessors :
    (∀ (v : AnyType) (t : EnumType), v.as_enum = some t ↔ v = AnyType.Enum t) ∧
    (∀ (v : AnyType) (t : IntegerType), v.as_integer = some t ↔ v = AnyType.Integer t) ∧
    (∀ (v : AnyType) (t : FloatingType), v.as_floating = some t ↔ v = AnyType.Floating t) ∧
    (∀ (v : AnyType) (t : PhysicalType), v.as_physical = some t ↔ v = AnyType.Physical t) ∧
    (∀ (v : AnyType) (t : ArrayType), v.as_array = some t ↔ v = AnyType.Array t) ∧
    (∀ t : EnumType, (AnyType.Enum t).unwrap_enum = Except.ok t) ∧
    (∀ v : AnyType, v.as_enum = none →
        v.unwrap_enum = Except.error ("type is not an enum")) ∧
    (∀ t : IntegerType, (AnyType.Integer t).unwrap_integer = Except.ok t) ∧
    (∀ v : AnyType, v.as_integer = none →
        v.unwrap_integer = Except.error ("type is not an integer")) ∧
    (∀ t : FloatingType, (AnyType.Floating t).unwrap_floating = Except.ok t) ∧
    (∀ v : AnyType, v.as_floating = none →
        v.unwrap_floating = Except.error ("type is not an floating")) ∧
    (∀ t : PhysicalType, (AnyType.Physical t).unwrap_physical = Except.ok t) ∧
    (∀ v : AnyType, v.as_physical = none →
        v.unwrap_physical = Except.error ("type is not an physical")) ∧
    (∀ t : ArrayType, (AnyType.Array t).unwrap_array = Except.ok t) ∧
    (∀ v : AnyType, v.as_array = none →
        v.unwrap_array = Except.error ("type is not an array")) := by
  refine ⟨?_, ?_, ?_, ?_, ?_, fun t => rfl, ?_, fun t => rfl, ?_, fun t => rfl,
    ?_, fun t => rfl, ?_, fun t => rfl, ?_⟩
  · intro v t; cases v <;> simp [AnyType.as_enum]
  · intro v t; cases v <;> simp [AnyType.as_integer]
  · intro v t; cases v <;> simp [AnyType.as_floating]
  · intro v t; cases v <;> simp [AnyType.as_physical]
  · intro v t; cases v <;> simp [AnyType.as_array]
  · intro v h; simp [AnyType.unwrap_enum, expectPanic, h]
  · intro v h; simp [AnyType.unwrap_integer, expectPanic, h]
  · intro v h; simp [AnyType.unwrap_floating, expectPanic, h]
  · intro v h; simp [AnyType.unwrap_physical, expectPanic, h]
  · intro v h; simp [AnyType.unwrap_array, expectPanic, h]

/-- Witness for C7: unwrapping an Enum-tagged view yields its enumeration,
and unwrapping the Null view as an enum aborts with the panic message; the
mismatch hypothesis is discharged by computing the checked accessor. -/
theorem c7_witness :
    (AnyType.Enum (EnumType.new [])).unwrap_enum = Except.ok (EnumType.new []) ∧
    (AnyType.Null).unwrap_enum = Except.error ("type is not an enum") :=
  ⟨c7_accessors.2.2.2.2.2.1 (EnumType.new []),
   c7_accessors.2.2.2.2.2.2.1 AnyType.Null rfl⟩

/-- Claim C8: an enumeration built by `new` from an ordered sequence of `n`
literals has `len() = n`, `literals()` returns the full input sequence in
order, `literal(i)` returns the i-th input literal for every `i < n`, and
`literal(i)` for `i ≥ n` is the out-of-bounds panic (modelled `none`), never
a silently returned value. -/
theorem c8_enum_new :
    ∀ lits : List EnumLiteral,
      (EnumType.new lits).len = lits.length ∧
      (EnumType.new lits).literals = lits ∧
      (∀ (i : Nat) (h : i < lits.length),
          (EnumType.new lits).literal i = some (lits.get ⟨i, h⟩)) ∧
      (∀ i : Nat, lits.length ≤ i → (EnumType.new lits).literal i = none) := by
  intro lits
  refine ⟨rfl, rfl, fun i h => ?_, fun i h => ?_⟩
  · simp [EnumType.new, EnumType.literal, List.get?_eq_get h]
  · exact List.get?_eq_none.mpr h

/-- Witness for C8: a one-literal enumeration looked up in bounds and out of
bounds, with both index hypotheses discharged by computation. -/
theorem c8_witness :
    (EnumType.new [EnumLiteral.Char '0']).literal 0 = some (EnumLiteral.Char '0') ∧
    (EnumType.new [EnumLiteral.Char '0']).literal 1 = none :=
  ⟨(c8_enum_new [EnumLiteral.Char '0']).2.2.1 0 (by decide),
   (c8_enum_new [EnumLiteral.Char '0']).2.2.2 1 (by decide)⟩

/-- Claim C9: the textual rendering of every kind matches the §6 contract: a
range renders as `{left} to {right}` or `{left} downto {right}` by its
direction; an enumeration renders its literals parenthesized and
comma-separated, identifiers bare and characters quoted; a floating type
renders as its range; a physical type renders as its range followed by
` units (` and the comma-separated unit names; an array renders as `array`;
and the markers render as `null`, `{universal integer}` and
`{universal real}`. -/
theorem c9_display_contract :
    (∀ l r : BigInt, (Range.ascending l r).display toString
        = toString l ++ " to " ++ toString r) ∧
    (∀ l r : BigInt, (Range.descending l r).display toString
        = toString l ++ " downto " ++ toString r) ∧
    ((Range.ascending (0 : BigInt) 42).display toString = "0 to 42") ∧
    ((Range.descending (42 : BigInt) 0).display toString = "42 downto 0") ∧
    ((Range.ascending (-5 : BigInt) 7).display toString = "-5 to 7") ∧
    (∀ t : EnumType, t.display
        = "(" ++ specJoin (t.lits.map EnumLiteral.display) ++ ")") ∧
    (∀ n : Name, (EnumLiteral.Ident n).display = n) ∧
    (∀ c : Char, (EnumLiteral.Char c).display
        = "\x27" ++ String.singleton c ++ "\x27") ∧
    ((EnumType.new [EnumLiteral.Ident ("first"), EnumLiteral.Ident ("second"),
        EnumLiteral.Char '0', EnumLiteral.Char '1']).display
        = "(first, second, \x270\x27, \x271\x27)") ∧
    (∀ t : FloatingType, t.display = t.range.display f64Display) ∧
    ((FloatingType.new (Range.ascending (0 : F64) 42)).display = "0 to 42") ∧
    (∀ t : PhysicalType, t.display
        = t.range.display toString ++ " units ("
          ++ specJoin (t.units.map PhysicalUnit.name) ++ ")") ∧
    (physExample.display = "0 to 1000000 units (fs, ps, ns)") ∧
    (∀ t : ArrayType, t.display = "array") ∧
    (NullType.display NullType.mk = "null") ∧
    (UniversalIntegerType.display UniversalIntegerType.mk
        = "\x7buniversal integer\x7d") ∧
    (UniversalRealType.display UniversalRealType.mk
        = "\x7buniversal real\x7d") := by
  have hto : ((" " : String) ++ "to") ++ " " = " to " := by decide
  have hdownto : ((" " : String) ++ "downto") ++ " " = " downto " := by decide
  refine ⟨fun l r => ?_, fun l r => ?_, by decide, by decide, by decide,
    fun t => ?_, fun n => rfl, fun c => rfl, by decide, fun t => rfl, by decide,
    fun t => ?_, by decide, fun t => rfl, rfl, rfl, rfl⟩
  · rw [← hto]
    simp [Range.display, Range.ascending, RangeDir.display, String.append_assoc]
  · rw [← hdownto]
    simp [Range.display, Range.descending, RangeDir.display, String.append_assoc]
  · simp only [EnumType.display, commaJoin_eq_specJoin]
  · simp only [PhysicalType.display, commaJoin_eq_specJoin]

/-- Claim C10: `PhysicalType::new(range, units, primary_index)` always
succeeds and stores its arguments unvalidated: `units()` is exactly the
given sequence in order and `primary_index()` exactly the given index, even
when the index is out of bounds of the unit list or the indexed unit does
not satisfy the primary-unit convention (`abs == 1`, `rel == None`). -/
theorem c10_physical_new_unvalidated :
    (∀ (r : Range BigInt) (us : List PhysicalUnit) (p : Nat),
        (PhysicalType.new r us p).units = us ∧
        (PhysicalType.new r us p).primary_index = p ∧
        (PhysicalType.new r us p).range = r) ∧
    ((PhysicalType.new (Range.ascending (0 : BigInt) 10)
        [PhysicalUnit.secondary ("ps") 1000 1000 0] 5).primary_index = 5 ∧
     (PhysicalType.new (Range.ascending (0 : BigInt) 10)
        [PhysicalUnit.secondary ("ps") 1000 1000 0] 5).units
        = [PhysicalUnit.secondary ("ps") 1000 1000 0]) :=
  ⟨fun _ _ _ => ⟨rfl, rfl, rfl⟩, rfl, rfl⟩
